import Mathlib

/-!
Verification of the `Spacebrook/quadtree` Python binding layer
(`src/python/src/lib.rs`) against its natural-language specification.

The repository's `src/` holds only the PyO3 binding (`lib.rs`); the engine
crate (`quadtree::quadtree`, `quadtree::shapes`) is not part of the sources,
so every engine definition below carries a doc comment starting
`Modelled from the spec:` and is written from the specification's words.
All binding-layer definitions are translated directly from `lib.rs`.

Coordinates are `f32` in the source.  The binding copies coordinate fields
verbatim and performs no arithmetic on them; we embed coordinates as `Rat`
(every finite `f32` value is an exact rational, and the spec-modelled
geometric predicates use only inclusive comparisons, which `Rat` supports
exactly and decidably).
-/

namespace Quadtree

/-- Modelled from the spec: the engine's `Rectangle` shape
`Rectangle{x, y, width, height}` (the `quadtree::shapes` module is not in
`src/`). -/
structure Rectangle where
  x : Rat
  y : Rat
  width : Rat
  height : Rat
deriving DecidableEq, Repr

/-- Modelled from the spec: the engine's `Circle` shape `Circle{x, y, radius}`
(the `quadtree::shapes` module is not in `src/`). -/
structure Circle where
  x : Rat
  y : Rat
  radius : Rat
deriving DecidableEq, Repr

/-- Modelled from the spec: `Circle::new`, the engine constructor used by the
binding's `extract_shape`; it packs the three fields. -/
def Circle.new (x y radius : Rat) : Circle :=
  { x := x, y := y, radius := radius }

/-- Modelled from the spec: the engine's shape sum type, "polymorphic over
variants \x7bCircle, Rectangle\x7d" (`quadtree::shapes::ShapeEnum`, not in
`src/`). -/
inductive ShapeEnum where
  | circle : Circle → ShapeEnum
  | rectangle : Rectangle → ShapeEnum
deriving DecidableEq, Repr

/-- Modelled from the spec: axis-aligned bounding box of a shape, used for the
containment test that decides whether an entry fits a single quadrant. -/
def ShapeEnum.boundingBox : ShapeEnum → Rectangle
  | .circle c => { x := c.x - c.radius, y := c.y - c.radius,
                   width := 2 * c.radius, height := 2 * c.radius }
  | .rectangle r => r

/-- Modelled from the spec: inclusive containment of rectangle `inner` in
rectangle `outer` (floating-point comparisons use ≥/≤ at boundaries). -/
def rectContainsRect (outer inner : Rectangle) : Bool :=
  decide (outer.x ≤ inner.x) && decide (inner.x + inner.width ≤ outer.x + outer.width) &&
  decide (outer.y ≤ inner.y) && decide (inner.y + inner.height ≤ outer.y + outer.height)

/-- Modelled from the spec: inclusive rectangle–rectangle overlap (closed
regions, touching counts as intersecting). -/
def rectIntersectsRect (a b : Rectangle) : Bool :=
  decide (a.x ≤ b.x + b.width) && decide (b.x ≤ a.x + a.width) &&
  decide (a.y ≤ b.y + b.height) && decide (b.y ≤ a.y + a.height)

/-- Modelled from the spec: inclusive circle–rectangle overlap, via the
closest point of the rectangle to the circle's center. -/
def circleIntersectsRect (c : Circle) (r : Rectangle) : Bool :=
  let nx := max r.x (min c.x (r.x + r.width))
  let ny := max r.y (min c.y (r.y + r.height))
  decide ((c.x - nx) ^ 2 + (c.y - ny) ^ 2 ≤ c.radius ^ 2)

/-- Modelled from the spec: inclusive circle–circle overlap. -/
def circleIntersectsCircle (a b : Circle) : Bool :=
  decide ((a.x - b.x) ^ 2 + (a.y - b.y) ^ 2 ≤ (a.radius + b.radius) ^ 2)

/-- Modelled from the spec: pairwise shape intersection (any combination of
Circle/Rectangle, closed-region overlap). -/
def shapesIntersect : ShapeEnum → ShapeEnum → Bool
  | .circle a, .circle b => circleIntersectsCircle a b
  | .circle a, .rectangle b => circleIntersectsRect a b
  | .rectangle a, .circle b => circleIntersectsRect b a
  | .rectangle a, .rectangle b => rectIntersectsRect a b

/-- Modelled from the spec: intersection of a query shape with a node's
bounding rectangle. -/
def shapeIntersectsRect (s : ShapeEnum) (r : Rectangle) : Bool :=
  shapesIntersect s (.rectangle r)

/-- Modelled from the spec: halving a node's rectangle into the four child
quadrants NW, NE, SW, SE. -/
def Rectangle.quadrants (r : Rectangle) : Rectangle × Rectangle × Rectangle × Rectangle :=
  let hw := r.width / 2
  let hh := r.height / 2
  ( { x := r.x, y := r.y, width := hw, height := hh },
    { x := r.x + hw, y := r.y, width := hw, height := hh },
    { x := r.x, y := r.y + hh, width := hw, height := hh },
    { x := r.x + hw, y := r.y + hh, width := hw, height := hh } )

/-- Modelled from the spec: an entry held by a tree node —
(entity id, shape, optional entity-type tag). -/
structure Entry where
  value : Nat
  shape : ShapeEnum
  entity_type : Option Nat
deriving DecidableEq, Repr

/-- Modelled from the spec: a tree node holds its bounding rectangle, a list
of entries, and either no children or exactly four child nodes. -/
inductive QNode where
  | leaf (bounds : Rectangle) (entries : List Entry)
  | branch (bounds : Rectangle) (entries : List Entry) (c0 c1 c2 c3 : QNode)
deriving Repr

/-- Modelled from the spec: the per-tree configuration
`\x7bpool_size, node_capacity, max_depth\x7d` (`quadtree::quadtree::Config`,
not in `src/`). -/
structure Config where
  pool_size : Nat
  node_capacity : Nat
  max_depth : Nat
deriving DecidableEq, Repr

/-- Modelled from the spec: the index of the unique child quadrant whose
rectangle fully contains the shape's bounding box, or `none` when the shape
straddles a split line (contained in zero quadrants, or — for degenerate
boxes lying exactly on a split line — in more than one). -/
def childIndexFor (s : ShapeEnum) (b : Rectangle) : Option Nat :=
  let q := b.quadrants
  let bb := s.boundingBox
  match rectContainsRect q.1 bb, rectContainsRect q.2.1 bb,
        rectContainsRect q.2.2.1 bb, rectContainsRect q.2.2.2 bb with
  | true, false, false, false => some 0
  | false, true, false, false => some 1
  | false, false, true, false => some 2
  | false, false, false, true => some 3
  | _, _, _, _ => none

/-- Modelled from the spec: subdivision — acquire four nodes sized to the four
quadrants and re-home every held entry into the unique child quadrant fully
containing it; straddling entries stay at this node.  (The node pool is a
memory-management concern with no observable effect on entries; the spec
leaves the grow-vs-fail policy open and the binding surfaces no pool error,
so allocation is modelled as always succeeding.) -/
def subdivideNode (b : Rectangle) (es : List Entry) : QNode :=
  let q := b.quadrants
  let stay := es.filter (fun e => (childIndexFor e.shape b).isNone)
  let child (i : Nat) : List Entry := es.filter (fun e => childIndexFor e.shape b == some i)
  .branch b stay (.leaf q.1 (child 0)) (.leaf q.2.1 (child 1))
    (.leaf q.2.2.1 (child 2)) (.leaf q.2.2.2 (child 3))

/-- Modelled from the spec: `insert(node, entry)` — recurse into the unique
containing child when subdivided and below `max_depth`; otherwise append
here; a leaf that exceeds `node_capacity` below `max_depth` subdivides. -/
def QNode.insertEntry (cfg : Config) : QNode → Nat → Entry → QNode
  | .leaf b es, depth, e =>
      let es2 := es ++ [e]
      if es2.length > cfg.node_capacity && depth < cfg.max_depth then
        subdivideNode b es2
      else
        .leaf b es2
  | .branch b es c0 c1 c2 c3, depth, e =>
      if depth < cfg.max_depth then
        match childIndexFor e.shape b with
        | some 0 => .branch b es (c0.insertEntry cfg (depth + 1) e) c1 c2 c3
        | some 1 => .branch b es c0 (c1.insertEntry cfg (depth + 1) e) c2 c3
        | some 2 => .branch b es c0 c1 (c2.insertEntry cfg (depth + 1) e) c3
        | some 3 => .branch b es c0 c1 c2 (c3.insertEntry cfg (depth + 1) e)
        | _ => .branch b (es ++ [e]) c0 c1 c2 c3
      else
        .branch b (es ++ [e]) c0 c1 c2 c3

/-- Modelled from the spec: `delete(node, id)` — remove the entry with the
given id from its holder node (ids are unique, so removing it wherever it
appears has the same effect as the O(1) id-index hop). -/
def QNode.deleteId (v : Nat) : QNode → QNode
  | .leaf b es => .leaf b (es.filter (fun e => e.value != v))
  | .branch b es c0 c1 c2 c3 =>
      .branch b (es.filter (fun e => e.value != v))
        (c0.deleteId v) (c1.deleteId v) (c2.deleteId v) (c3.deleteId v)

/-- Modelled from the spec: the entity-type filter — if `entity_types` is
provided, an entry matches only if its tag is in that set; an absent filter
matches everything, including entries with no tag. -/
def entryMatchesFilter (ets : Option (List Nat)) (e : Entry) : Bool :=
  match ets with
  | none => true
  | some l =>
      match e.entity_type with
      | some t => l.contains t
      | none => false

/-- Modelled from the spec: `collisions_filter` traversal — prune a subtree
whose bounding box is disjoint from the query shape; otherwise report every
directly-held matching entry's id and recurse into the children. -/
def QNode.collisionsFilterNode (s : ShapeEnum) (ets : Option (List Nat)) : QNode → List Nat
  | .leaf b es =>
      if shapeIntersectsRect s b then
        (es.filter (fun e => entryMatchesFilter ets e && shapesIntersect s e.shape)).map
          (fun e => e.value)
      else []
  | .branch b es c0 c1 c2 c3 =>
      if shapeIntersectsRect s b then
        (es.filter (fun e => entryMatchesFilter ets e && shapesIntersect s e.shape)).map
            (fun e => e.value)
          ++ c0.collisionsFilterNode s ets ++ c1.collisionsFilterNode s ets
          ++ c2.collisionsFilterNode s ets ++ c3.collisionsFilterNode s ets
      else []

/-- Modelled from the spec: `collect_bounding_boxes(node, out)` — depth-first,
appends every node's rectangle (both leaves and internal). -/
def QNode.collectBoundingBoxes : QNode → List Rectangle
  | .leaf b _ => [b]
  | .branch b _ c0 c1 c2 c3 =>
      b :: (c0.collectBoundingBoxes ++ c1.collectBoundingBoxes
        ++ c2.collectBoundingBoxes ++ c3.collectBoundingBoxes)

/-- Modelled from the spec: `collect_shapes(node, out)` — depth-first,
appends every held entry's shape. -/
def QNode.collectShapes : QNode → List ShapeEnum
  | .leaf _ es => es.map (fun e => e.shape)
  | .branch _ es c0 c1 c2 c3 =>
      es.map (fun e => e.shape) ++ c0.collectShapes ++ c1.collectShapes
        ++ c2.collectShapes ++ c3.collectShapes

/-- Modelled from the spec: a batched relocation request
`(value, shape, entity_type?)` (`quadtree::quadtree::RelocationRequest`, not
in `src/`). -/
structure RelocationRequest where
  value : Nat
  shape : ShapeEnum
  entity_type : Option Nat
deriving DecidableEq, Repr

/-- Modelled from the spec: the engine `QuadTree` — root node plus immutable
configuration.  (The id→holder index is a pure lookup optimization whose
content is determined by the tree; it is not carried separately here.) -/
structure QuadTree where
  root : QNode
  config : Config

/-- Modelled from the spec: the default configuration used by `new`.  The
spec requires concrete defaults but does not record their values; the
numbers below are placeholders and no claim depends on them. -/
def defaultConfig : Config :=
  { pool_size := 64, node_capacity := 4, max_depth := 8 }

/-- Modelled from the spec: `new_with_config(bounding_box, config)` — builds
the root node sized to `bounding_box` and stores `config`. -/
def QuadTree.new_with_config (bounding_box : Rectangle) (config : Config) : QuadTree :=
  { root := .leaf bounding_box [], config := config }

/-- Modelled from the spec: `new(bounding_box)` with the default config. -/
def QuadTree.new (bounding_box : Rectangle) : QuadTree :=
  QuadTree.new_with_config bounding_box defaultConfig

/-- Modelled from the spec: `QuadTree::insert` — walk from the root per the
node-insertion rules.  The binding calls it in statement position and
unconditionally returns success, so it is modelled as total. -/
def QuadTree.insert (t : QuadTree) (value : Nat) (shape : ShapeEnum)
    (entity_type : Option Nat) : QuadTree :=
  let e : Entry := { value := value, shape := shape, entity_type := entity_type }
  { t with root := t.root.insertEntry t.config 0 e }

/-- Modelled from the spec: `QuadTree::delete` — no-op when the id is absent,
otherwise removes the entry. -/
def QuadTree.delete (t : QuadTree) (value : Nat) : QuadTree :=
  { t with root := t.root.deleteId value }

/-- Modelled from the spec: `QuadTree::relocate` — logically delete-then-insert
under the same id; an absent id degrades to a plain insert. -/
def QuadTree.relocate (t : QuadTree) (value : Nat) (shape : ShapeEnum)
    (entity_type : Option Nat) : QuadTree :=
  (t.delete value).insert value shape entity_type

/-- Modelled from the spec: `QuadTree::relocate_batch` — applies a sequence of
relocate operations in order. -/
def QuadTree.relocate_batch (t : QuadTree) (requests : List RelocationRequest) : QuadTree :=
  requests.foldl (fun acc r => acc.relocate r.value r.shape r.entity_type) t

/-- Modelled from the spec: `QuadTree::collisions_filter(shape, entity_types,
out)` — depth-first traversal from the root appending matching ids. -/
def QuadTree.collisions_filter (t : QuadTree) (shape : ShapeEnum)
    (entity_types : Option (List Nat)) : List Nat :=
  t.root.collisionsFilterNode shape entity_types

/-- Modelled from the spec: `QuadTree::collisions_batch_filter` — applies the
single-shape query independently per shape, preserving input order; the
filter, if provided, applies uniformly to all shapes. -/
def QuadTree.collisions_batch_filter (t : QuadTree) (shapes : List ShapeEnum)
    (entity_types : Option (List Nat)) : List (List Nat) :=
  shapes.map (fun s => t.collisions_filter s entity_types)

/-- Modelled from the spec: `QuadTree::all_node_bounding_boxes(out)` — the
collector over the whole tree. -/
def QuadTree.all_node_bounding_boxes (t : QuadTree) : List Rectangle :=
  t.root.collectBoundingBoxes

/-- Modelled from the spec: `QuadTree::all_shapes(out)` — the shape collector
over the whole tree (the engine's shapes are exactly the Circle/Rectangle
variants of `ShapeEnum`). -/
def QuadTree.all_shapes (t : QuadTree) : List ShapeEnum :=
  t.root.collectShapes

/-! ## The binding layer, translated from `src/python/src/lib.rs` -/

/-- The `Circle` pyclass (`PyCircle`, lib.rs lines 18–32). -/
structure PyCircle where
  x : Rat
  y : Rat
  radius : Rat
deriving DecidableEq, Repr

/-- The `Rectangle` pyclass (`PyRectangle`, lib.rs lines 34–54). -/
structure PyRectangle where
  x : Rat
  y : Rat
  width : Rat
  height : Rat
deriving DecidableEq, Repr

/-- The `Config` pyclass (`PyConfig`, lib.rs lines 56–74). -/
structure PyConfig where
  pool_size : Nat
  node_capacity : Nat
  max_depth : Nat
deriving DecidableEq, Repr

/-- A Python object as the binding observes it: a `Circle` pyclass instance,
a `Rectangle` pyclass instance, an integer, `None`, or anything else
(for which every typed `extract` fails). -/
inductive PyObject where
  | circle : PyCircle → PyObject
  | rect : PyRectangle → PyObject
  | int : Int → PyObject
  | pyNone : PyObject
  | other : PyObject
deriving DecidableEq, Repr

/-- A raised Python exception (the binding raises only `PyTypeError`). -/
inductive PyErr where
  | typeError : String → PyErr
deriving DecidableEq, Repr

/-- `obj.extract::<u32>()`: succeeds exactly on Python ints in `u32` range. -/
def pyExtractU32 : PyObject → Option Nat
  | .int n => if 0 ≤ n && n < 2 ^ 32 then some n.toNat else none
  | _ => none

/-- The wrapper pyclass (`QuadTreeWrapper`, lib.rs lines 78–81): owns the
engine tree. -/
structure QuadTreeWrapper where
  quadtree : QuadTree

/-- `QuadTreeWrapper::extract_shape` (lib.rs lines 259–278): try
`extract::<PyRectangle>`, then `extract::<PyCircle>`, else raise
`PyTypeError`.  (The source's unused `&self` receiver is dropped.) -/
def QuadTreeWrapper.extract_shape (shape : PyObject) : Except PyErr ShapeEnum :=
  match shape with
  | .rect r =>
      .ok (ShapeEnum.rectangle
        { x := r.x, y := r.y, width := r.width, height := r.height })
  | .circle c => .ok (ShapeEnum.circle (Circle.new c.x c.y c.radius))
  | _ => .error (.typeError "Expected a Rectangle or Circle object")

/-- The `iter().map(extract::<u32>).collect::<Result<Vec<u32>, _>>()` inside
`extract_entity_types` (lib.rs lines 286–289): the first non-`u32` element
aborts the collection with its error. -/
def collectU32Result : List PyObject → Except PyErr (List Nat)
  | [] => .ok []
  | x :: xs =>
      match pyExtractU32 x with
      | none => .error (PyErr.typeError "expected u32")
      | some n =>
          match collectU32Result xs with
          | .error e => .error e
          | .ok ns => .ok (n :: ns)

/-- `QuadTreeWrapper::extract_entity_types` (lib.rs lines 280–294): extract
each list element as `u32`, failing on the first non-`u32` element. -/
def QuadTreeWrapper.extract_entity_types (entity_types : Option (List PyObject)) :
    Except PyErr (Option (List Nat)) :=
  match entity_types with
  | some l => (collectU32Result l).map some
  | none => .ok none

/-- `QuadTreeWrapper::new` (lib.rs lines 86–96): copy the pyclass rectangle
fields into the engine rectangle and build the default-config tree.
Every binding method is embedded as a function from the receiver state to
(possibly updated state, outcome); methods taking `&self` return the
receiver unchanged. -/
def QuadTreeWrapper.new (bounding_box : PyRectangle) : QuadTreeWrapper :=
  { quadtree := QuadTree.new
      { x := bounding_box.x, y := bounding_box.y,
        width := bounding_box.width, height := bounding_box.height } }

/-- `QuadTreeWrapper::new_with_config` (lib.rs lines 98–114): copy the
rectangle and config fields verbatim into the engine types. -/
def QuadTreeWrapper.new_with_config (bounding_box : PyRectangle)
    (config : PyConfig) : QuadTreeWrapper :=
  { quadtree := QuadTree.new_with_config
      { x := bounding_box.x, y := bounding_box.y,
        width := bounding_box.width, height := bounding_box.height }
      { pool_size := config.pool_size, node_capacity := config.node_capacity,
        max_depth := config.max_depth } }

/-- `QuadTreeWrapper::insert` (lib.rs lines 116–126): extract the shape
(propagating its error with `?`), then call the engine insert and return
`Ok(())`. -/
def QuadTreeWrapper.insert (w : QuadTreeWrapper) (value : Nat) (shape : PyObject)
    (entity_type : Option Nat) : QuadTreeWrapper × Except PyErr Unit :=
  match QuadTreeWrapper.extract_shape shape with
  | .error e => (w, .error e)
  | .ok s => ({ quadtree := w.quadtree.insert value s entity_type }, .ok ())

/-- `QuadTreeWrapper::delete` (lib.rs lines 128–130): infallible. -/
def QuadTreeWrapper.delete (w : QuadTreeWrapper) (value : Nat) : QuadTreeWrapper :=
  { quadtree := w.quadtree.delete value }

/-- `QuadTreeWrapper::collisions_filter` (lib.rs lines 136–150): extract the
shape, then the entity types, then run the engine query into a fresh
vector.  Takes `&self`: the receiver is returned unchanged. -/
def QuadTreeWrapper.collisions_filter (w : QuadTreeWrapper) (shape : PyObject)
    (entity_types : Option (List PyObject)) :
    QuadTreeWrapper × Except PyErr (List Nat) :=
  match QuadTreeWrapper.extract_shape shape with
  | .error e => (w, .error e)
  | .ok s =>
      match QuadTreeWrapper.extract_entity_types entity_types with
      | .error e => (w, .error e)
      | .ok ets => (w, .ok (w.quadtree.collisions_filter s ets))

/-- `QuadTreeWrapper::collisions` (lib.rs lines 132–134): delegates to
`collisions_filter` with `None`. -/
def QuadTreeWrapper.collisions (w : QuadTreeWrapper) (shape : PyObject) :
    QuadTreeWrapper × Except PyErr (List Nat) :=
  w.collisions_filter shape none

/-- The `iter().map(extract_shape).collect::<Result<Vec<ShapeEnum>, _>>()`
inside `collisions_batch_filter` (lib.rs lines 162–165): the first
non-shape element aborts the collection with its error. -/
def collectShapesResult : List PyObject → Except PyErr (List ShapeEnum)
  | [] => .ok []
  | x :: xs =>
      match QuadTreeWrapper.extract_shape x with
      | .error e => .error e
      | .ok s =>
          match collectShapesResult xs with
          | .error e => .error e
          | .ok ss => .ok (s :: ss)

/-- `QuadTreeWrapper::collisions_batch_filter` (lib.rs lines 156–170): extract
every shape (collecting into `Result`, so the first failure aborts), then
the entity types, then run the engine batch query.  Takes `&self`. -/
def QuadTreeWrapper.collisions_batch_filter (w : QuadTreeWrapper)
    (shapes : List PyObject) (entity_types : Option (List PyObject)) :
    QuadTreeWrapper × Except PyErr (List (List Nat)) :=
  match collectShapesResult shapes with
  | .error e => (w, .error e)
  | .ok ss =>
      match QuadTreeWrapper.extract_entity_types entity_types with
      | .error e => (w, .error e)
      | .ok ets => (w, .ok (w.quadtree.collisions_batch_filter ss ets))

/-- `QuadTreeWrapper::collisions_batch` (lib.rs lines 152–154): delegates to
`collisions_batch_filter` with `None`. -/
def QuadTreeWrapper.collisions_batch (w : QuadTreeWrapper) (shapes : List PyObject) :
    QuadTreeWrapper × Except PyErr (List (List Nat)) :=
  w.collisions_batch_filter shapes none

/-- `QuadTreeWrapper::relocate` (lib.rs lines 172–182): extract the shape
(propagating its error with `?`), then call the engine relocate. -/
def QuadTreeWrapper.relocate (w : QuadTreeWrapper) (value : Nat) (shape : PyObject)
    (entity_type : Option Nat) : QuadTreeWrapper × Except PyErr Unit :=
  match QuadTreeWrapper.extract_shape shape with
  | .error e => (w, .error e)
  | .ok s => ({ quadtree := w.quadtree.relocate value s entity_type }, .ok ())

/-- The outcome of a call that may also abort with a Rust panic (which PyO3
surfaces to Python as an uncontrolled `PanicException`). -/
inductive PyCallResult (α : Type) where
  | ok : α → PyCallResult α
  | fault : PyCallResult α
deriving DecidableEq, Repr

/-- The per-tuple conversion inside `QuadTreeWrapper::relocate_batch`
(lib.rs lines 190–207): `tuple.get_item(i).unwrap()`, `extract::<u32>()
.unwrap()` and `extract_shape(..).unwrap()` all panic on failure, which is
modelled by `none`.  A tuple is its list of items. -/
def parseRelocationRequest (items : List PyObject) : Option RelocationRequest := do
  let i0 ← items.get? 0
  let value ← pyExtractU32 i0
  let i1 ← items.get? 1
  let shape ← (QuadTreeWrapper.extract_shape i1).toOption
  let i2 ← items.get? 2
  let entity_type ←
    match i2 with
    | .pyNone => some Option.none
    | o => (pyExtractU32 o).map some
  pure { value := value, shape := shape, entity_type := entity_type }

/-- The `into_iter().map(..).collect::<Vec<RelocationRequest>>()` inside
`relocate_batch` (lib.rs lines 190–207): the first malformed tuple panics,
aborting the whole collection. -/
def collectRequests : List (List PyObject) → Option (List RelocationRequest)
  | [] => some []
  | t :: ts =>
      match parseRelocationRequest t with
      | none => none
      | some r =>
          match collectRequests ts with
          | none => none
          | some rs => some (r :: rs)

/-- `QuadTreeWrapper::relocate_batch` (lib.rs lines 184–212): convert every
tuple (any conversion failure is an `unwrap` panic that aborts the whole
call before the engine is invoked), then call the engine batch relocate. -/
def QuadTreeWrapper.relocate_batch (w : QuadTreeWrapper)
    (relocation_requests : List (List PyObject)) :
    QuadTreeWrapper × PyCallResult Unit :=
  match collectRequests relocation_requests with
  | none => (w, .fault)
  | some rs => ({ quadtree := w.quadtree.relocate_batch rs }, .ok ())

/-- `QuadTreeWrapper::all_node_bounding_boxes` (lib.rs lines 214–221): run the
engine collector and map each rectangle to its `(x, y, width, height)`
tuple.  Takes `&self`. -/
def QuadTreeWrapper.all_node_bounding_boxes (w : QuadTreeWrapper) :
    QuadTreeWrapper × List (Rat × Rat × Rat × Rat) :=
  (w, (w.quadtree.all_node_bounding_boxes).map
    (fun rect => (rect.x, rect.y, rect.width, rect.height)))

/-- The per-shape conversion inside `QuadTreeWrapper::all_shapes`
(lib.rs lines 227–253): downcast to `Circle` or `Rectangle` and rebuild the
pyclass with the same fields.  The source's "Unknown shape" branch has no
counterpart because the engine's shapes are exactly the two `ShapeEnum`
variants. -/
def shapeEnumToPy : ShapeEnum → PyObject
  | .circle c => .circle { x := c.x, y := c.y, radius := c.radius }
  | .rectangle r => .rect { x := r.x, y := r.y, width := r.width, height := r.height }

/-- `QuadTreeWrapper::all_shapes` (lib.rs lines 223–255): collect the engine
shapes and convert each back to a pyclass object.  Takes `&self`. -/
def QuadTreeWrapper.all_shapes (w : QuadTreeWrapper) :
    QuadTreeWrapper × Except PyErr (List PyObject) :=
  (w, .ok ((w.quadtree.all_shapes).map shapeEnumToPy))

/-- `true` exactly on the objects `extract_shape` accepts. -/
def PyObject.isShape : PyObject → Bool
  | .circle _ => true
  | .rect _ => true
  | _ => false

/-- `true` exactly on shape objects with a non-positive radius, width, or
height. -/
def PyObject.hasNonPositiveDim : PyObject → Bool
  | .circle c => decide (c.radius ≤ 0)
  | .rect r => decide (r.width ≤ 0) || decide (r.height ≤ 0)
  | _ => false

/-- The single error value `extract_shape` can raise. -/
def shapeTypeError : PyErr := PyErr.typeError "Expected a Rectangle or Circle object"

/-- The single error value the `u32` extraction in `extract_entity_types`
can raise. -/
def u32TypeError : PyErr := PyErr.typeError "expected u32"

/-! ## Concrete states used by witnesses and counterexamples -/

/-- A fresh default-config tree over the box `(0, 0, 100, 100)`. -/
def w0 : QuadTreeWrapper :=
  QuadTreeWrapper.new { x := 0, y := 0, width := 100, height := 100 }

/-- `w0` after inserting id 1 (a rectangle, tag 5) and id 2 (a circle,
tag 7). -/
def w1 : QuadTreeWrapper :=
  ((w0.insert 1 (.rect { x := 10, y := 10, width := 5, height := 5 }) (some 5)).1.insert 2
    (.circle { x := 50, y := 50, radius := 3 }) (some 7)).1

/-! ## Helper lemmas -/

lemma extract_shape_of_not_shape (s : PyObject) (h : s.isShape = false) :
    QuadTreeWrapper.extract_shape s = .error shapeTypeError := by
  cases s <;> first | rfl | simp [PyObject.isShape] at h

lemma collectShapesResult_error_of_mem (shapes : List PyObject) (s : PyObject)
    (hmem : s ∈ shapes) (h : s.isShape = false) :
    collectShapesResult shapes = .error shapeTypeError := by
  induction shapes with
  | nil => cases hmem
  | cons x xs ih =>
    rcases List.mem_cons.mp hmem with hx | hx
    · subst hx
      simp [collectShapesResult, extract_shape_of_not_shape s h]
    · cases hex : QuadTreeWrapper.extract_shape x with
      | error e =>
        have : e = shapeTypeError := by
          cases x <;> simp [QuadTreeWrapper.extract_shape, shapeTypeError] at hex ⊢ <;>
            exact hex.symm
        subst this
        simp [collectShapesResult, hex]
      | ok s2 => simp [collectShapesResult, hex, ih hx]

lemma collectU32Result_error_of_mem (l : List PyObject) (o : PyObject)
    (hmem : o ∈ l) (h : pyExtractU32 o = none) :
    collectU32Result l = .error u32TypeError := by
  induction l with
  | nil => cases hmem
  | cons x xs ih =>
    rcases List.mem_cons.mp hmem with hx | hx
    · subst hx
      simp [collectU32Result, h, u32TypeError]
    · cases hex : pyExtractU32 x with
      | none => simp [collectU32Result, hex, u32TypeError]
      | some n => simp [collectU32Result, hex, ih hx]

lemma collectShapesResult_ok_get (shapes : List PyObject) (ss : List ShapeEnum)
    (h : collectShapesResult shapes = .ok ss) :
    ss.length = shapes.length ∧
    ∀ (i : Nat) (s : PyObject), shapes[i]? = some s →
      ∃ e, ss[i]? = some e ∧ QuadTreeWrapper.extract_shape s = .ok e := by
  induction shapes generalizing ss with
  | nil =>
    simp [collectShapesResult] at h
    subst h
    simp
  | cons x xs ih =>
    cases hex : QuadTreeWrapper.extract_shape x with
    | error e => simp [collectShapesResult, hex] at h
    | ok s1 =>
      cases hrest : collectShapesResult xs with
      | error e => simp [collectShapesResult, hex, hrest] at h
      | ok ss1 =>
        simp [collectShapesResult, hex, hrest] at h
        subst h
        obtain ⟨hlen, hget⟩ := ih ss1 hrest
        refine ⟨by simp [hlen], ?_⟩
        intro i s hi
        cases i with
        | zero =>
          simp at hi
          subst hi
          exact ⟨s1, by simp, hex⟩
        | succ j =>
          simp at hi ⊢
          exact hget j s hi

lemma collisions_filter_fst (w : QuadTreeWrapper) (s : PyObject)
    (ets : Option (List PyObject)) : (w.collisions_filter s ets).1 = w := by
  unfold QuadTreeWrapper.collisions_filter
  cases QuadTreeWrapper.extract_shape s with
  | error e => rfl
  | ok sh =>
    cases QuadTreeWrapper.extract_entity_types ets with
    | error e => rfl
    | ok e2 => rfl

lemma collisions_batch_filter_fst (w : QuadTreeWrapper) (shapes : List PyObject)
    (ets : Option (List PyObject)) : (w.collisions_batch_filter shapes ets).1 = w := by
  unfold QuadTreeWrapper.collisions_batch_filter
  cases collectShapesResult shapes with
  | error e => rfl
  | ok ss =>
    cases QuadTreeWrapper.extract_entity_types ets with
    | error e => rfl
    | ok e2 => rfl

/-! ## Claims -/

/-- C1: for every tree state and every query input, `collisions(shape)`
returns exactly what `collisions_filter(shape, None)` returns, and
`collisions_batch(shapes)` returns exactly what
`collisions_batch_filter(shapes, None)` returns. -/
theorem claim_C1_unfiltered_equals_filter_none (w : QuadTreeWrapper) (shape : PyObject)
    (shapes : List PyObject) :
    w.collisions shape = w.collisions_filter shape none ∧
    w.collisions_batch shapes = w.collisions_batch_filter shapes none :=
  ⟨rfl, rfl⟩

/-- C2: evaluation at the failing input — a batch whose first relocation
request carries a non-shape second component (the integer `2`) makes
`relocate_batch` abort with a Rust panic (an uncontrolled fault) before the
engine is invoked, so the second, well-formed request is never processed and
no per-request failure is reported.  This contradicts the claim, which the
spec states twice; the `unwrap()` calls in lib.rs lines 193–199 are the
slip. -/
theorem claim_C2_relocate_batch_panics_on_malformed :
    QuadTreeWrapper.relocate_batch w0
      [[PyObject.int 1, PyObject.int 2, PyObject.pyNone],
       [PyObject.int 3, PyObject.circle { x := 1, y := 1, radius := 1 }, PyObject.pyNone]] =
      (w0, PyCallResult.fault) :=
  rfl

/-- C3: counterexample — inserting a zero-radius circle returns `Ok(())`;
no `InvalidShape` error is produced. -/
theorem claim_C3_counterexample :
    (w0.insert 1 (PyObject.circle { x := 5, y := 5, radius := 0 }) none).2 =
      Except.ok () :=
  rfl

/-- C3 (amended): for every id and entity type, `insert` with a shape whose
radius, width, or height is negative or zero succeeds, returning `Ok(())`
— the binding performs no shape-size validation and surfaces no
`InvalidShape` error. -/
theorem claim_C3_insert_accepts_nonpositive_shapes (w : QuadTreeWrapper) (value : Nat)
    (entity_type : Option Nat) (s : PyObject) (h : s.hasNonPositiveDim = true) :
    (w.insert value s entity_type).2 = Except.ok () := by
  cases s <;> first | rfl | simp [PyObject.hasNonPositiveDim] at h

/-- C3 witness: the amended theorem applied to a circle of radius `-1`. -/
theorem claim_C3_witness :
    (PyObject.circle { x := 1, y := 1, radius := -1 }).hasNonPositiveDim = true ∧
    (w0.insert 2 (PyObject.circle { x := 1, y := 1, radius := -1 }) none).2 =
      Except.ok () :=
  ⟨by with_unfolding_all rfl,
   claim_C3_insert_accepts_nonpositive_shapes w0 2 none
     (PyObject.circle { x := 1, y := 1, radius := -1 }) (by with_unfolding_all rfl)⟩

/-- C4: an input object that is neither a Circle nor a Rectangle is rejected
with a `PyTypeError` by every shape-taking operation, the receiver state is
unchanged, and the engine is never invoked with it (the error is produced
before any engine call, as the unchanged state and error result show). -/
theorem claim_C4_nonshape_rejected_at_boundary (w : QuadTreeWrapper) (value : Nat)
    (entity_type : Option Nat) (s : PyObject) (ets : Option (List PyObject))
    (shapes : List PyObject) (h : s.isShape = false) (hmem : s ∈ shapes) :
    w.insert value s entity_type = (w, .error shapeTypeError) ∧
    w.relocate value s entity_type = (w, .error shapeTypeError) ∧
    w.collisions s = (w, .error shapeTypeError) ∧
    w.collisions_filter s ets = (w, .error shapeTypeError) ∧
    w.collisions_batch shapes = (w, .error shapeTypeError) ∧
    w.collisions_batch_filter shapes ets = (w, .error shapeTypeError) := by
  have hx := extract_shape_of_not_shape s h
  have hb := collectShapesResult_error_of_mem shapes s hmem h
  refine ⟨?_, ?_, ?_, ?_, ?_, ?_⟩ <;>
    simp [QuadTreeWrapper.insert, QuadTreeWrapper.relocate, QuadTreeWrapper.collisions,
      QuadTreeWrapper.collisions_filter, QuadTreeWrapper.collisions_batch,
      QuadTreeWrapper.collisions_batch_filter, hx, hb]

/-- C4 witness: the theorem applied to the non-shape object `other` against
the state `w0`. -/
theorem claim_C4_witness :
    PyObject.other.isShape = false ∧ PyObject.other ∈ [PyObject.other] ∧
    (w0.insert 1 PyObject.other none = (w0, .error shapeTypeError) ∧
     w0.relocate 1 PyObject.other none = (w0, .error shapeTypeError) ∧
     w0.collisions PyObject.other = (w0, .error shapeTypeError) ∧
     w0.collisions_filter PyObject.other none = (w0, .error shapeTypeError) ∧
     w0.collisions_batch [PyObject.other] = (w0, .error shapeTypeError) ∧
     w0.collisions_batch_filter [PyObject.other] none = (w0, .error shapeTypeError)) :=
  ⟨rfl, List.mem_singleton.mpr rfl,
   claim_C4_nonshape_rejected_at_boundary w0 1 none PyObject.other none
     [PyObject.other] rfl (List.mem_singleton.mpr rfl)⟩

/-- C5: when `collisions_batch_filter` succeeds, it returns exactly one
result-set per input shape, in input order: the i-th result-set is exactly
what the single-shape `collisions_filter` returns for the i-th shape under
the same filter on the same state. -/
theorem claim_C5_batch_matches_single_queries (w : QuadTreeWrapper)
    (shapes : List PyObject) (ets : Option (List PyObject)) (results : List (List Nat))
    (h : (w.collisions_batch_filter shapes ets).2 = .ok results) :
    results.length = shapes.length ∧
    ∀ (i : Nat) (s : PyObject), shapes[i]? = some s →
      ∃ r, results[i]? = some r ∧ (w.collisions_filter s ets).2 = .ok r := by
  cases hcs : collectShapesResult shapes with
  | error e => simp [QuadTreeWrapper.collisions_batch_filter, hcs] at h
  | ok ss =>
    cases het : QuadTreeWrapper.extract_entity_types ets with
    | error e => simp [QuadTreeWrapper.collisions_batch_filter, hcs, het] at h
    | ok ets2 =>
      simp [QuadTreeWrapper.collisions_batch_filter, hcs, het] at h
      subst h
      obtain ⟨hlen, hget⟩ := collectShapesResult_ok_get shapes ss hcs
      refine ⟨by simp [QuadTree.collisions_batch_filter, hlen], ?_⟩
      intro i s hi
      obtain ⟨e, he, hex⟩ := hget i s hi
      refine ⟨w.quadtree.collisions_filter e ets2, ?_, ?_⟩
      · simp [QuadTree.collisions_batch_filter, he]
      · simp [QuadTreeWrapper.collisions_filter, hex, het]

/-- C5 witness: the theorem applied to the two-shape batch on the two-entity
state `w1`; the batch result `[[1], [2]]` matches the two single queries. -/
theorem claim_C5_witness :
    (w1.collisions_batch_filter
        [PyObject.rect { x := 0, y := 0, width := 20, height := 20 },
         PyObject.circle { x := 50, y := 50, radius := 10 }] none).2 =
      .ok [[1], [2]] ∧
    ([[1], [2]] : List (List Nat)).length =
      ([PyObject.rect { x := 0, y := 0, width := 20, height := 20 },
        PyObject.circle { x := 50, y := 50, radius := 10 }] : List PyObject).length ∧
    ∀ (i : Nat) (s : PyObject),
      ([PyObject.rect { x := 0, y := 0, width := 20, height := 20 },
        PyObject.circle { x := 50, y := 50, radius := 10 }] : List PyObject)[i]? = some s →
      ∃ r, ([[1], [2]] : List (List Nat))[i]? = some r ∧
        (w1.collisions_filter s none).2 = .ok r :=
  ⟨by with_unfolding_all rfl,
   claim_C5_batch_matches_single_queries w1
     [PyObject.rect { x := 0, y := 0, width := 20, height := 20 },
      PyObject.circle { x := 50, y := 50, radius := 10 }] none [[1], [2]]
     (by with_unfolding_all rfl)⟩

/-- C6: shape conversion round-trips exactly — every Circle or Rectangle
object accepted at the boundary converts into an engine shape that the
`all_shapes` conversion maps back to the same variant with identical field
values. -/
theorem claim_C6_shape_roundtrip (po : PyObject) (h : po.isShape = true) :
    ∃ s, QuadTreeWrapper.extract_shape po = .ok s ∧ shapeEnumToPy s = po := by
  cases po with
  | circle c => exact ⟨_, rfl, rfl⟩
  | rect r => exact ⟨_, rfl, rfl⟩
  | int n => simp [PyObject.isShape] at h
  | pyNone => simp [PyObject.isShape] at h
  | other => simp [PyObject.isShape] at h

/-- C6 witness: the theorem applied to `Circle(1, 2, 3)`. -/
theorem claim_C6_witness :
    (PyObject.circle { x := 1, y := 2, radius := 3 }).isShape = true ∧
    ∃ s, QuadTreeWrapper.extract_shape (PyObject.circle { x := 1, y := 2, radius := 3 }) =
        .ok s ∧
      shapeEnumToPy s = PyObject.circle { x := 1, y := 2, radius := 3 } :=
  ⟨rfl, claim_C6_shape_roundtrip (PyObject.circle { x := 1, y := 2, radius := 3 }) rfl⟩

/-- C7: `new_with_config` constructs the engine with exactly the given
bounding-rectangle fields and exactly the given three configuration values:
the stored config equals the input config field-for-field, and the root is
a leaf over exactly the input rectangle. -/
theorem claim_C7_new_with_config_exact (bounding_box : PyRectangle) (config : PyConfig) :
    (QuadTreeWrapper.new_with_config bounding_box config).quadtree.config =
      { pool_size := config.pool_size, node_capacity := config.node_capacity,
        max_depth := config.max_depth } ∧
    (QuadTreeWrapper.new_with_config bounding_box config).quadtree.root =
      QNode.leaf
        { x := bounding_box.x, y := bounding_box.y,
          width := bounding_box.width, height := bounding_box.height } [] :=
  ⟨rfl, rfl⟩

/-- C8: `all_node_bounding_boxes` returns one `(x, y, width, height)` tuple
per rectangle collected by the engine, in the collected order, each tuple's
components equal to the corresponding rectangle's fields. -/
theorem claim_C8_bounding_box_tuples (w : QuadTreeWrapper) :
    (w.all_node_bounding_boxes).2.length = w.quadtree.all_node_bounding_boxes.length ∧
    ∀ (i : Nat), (w.all_node_bounding_boxes).2[i]? =
      (w.quadtree.all_node_bounding_boxes[i]?).map
        (fun rect => (rect.x, rect.y, rect.width, rect.height)) := by
  constructor
  · simp [QuadTreeWrapper.all_node_bounding_boxes]
  · intro i
    simp [QuadTreeWrapper.all_node_bounding_boxes]

/-- C9: the query and introspection operations take the tree by immutable
reference, so each call returns the receiver state unchanged. -/
theorem claim_C9_queries_preserve_state (w : QuadTreeWrapper) (shape : PyObject)
    (shapes : List PyObject) (ets : Option (List PyObject)) :
    (w.collisions shape).1 = w ∧ (w.collisions_filter shape ets).1 = w ∧
    (w.collisions_batch shapes).1 = w ∧ (w.collisions_batch_filter shapes ets).1 = w ∧
    (w.all_node_bounding_boxes).1 = w ∧ (w.all_shapes).1 = w :=
  ⟨collisions_filter_fst w shape none, collisions_filter_fst w shape ets,
   collisions_batch_filter_fst w shapes none, collisions_batch_filter_fst w shapes ets,
   rfl, rfl⟩

/-- C10: `collisions_batch_filter` fails atomically — if any shape in the
list is not a Circle/Rectangle, or any entity-type element is not a `u32`,
the whole call returns an error with the receiver unchanged; no partial
result list exists and the engine query is never reached. -/
theorem claim_C10_batch_filter_atomic_failure (w : QuadTreeWrapper)
    (shapes : List PyObject) (ets : Option (List PyObject))
    (h : (∃ s ∈ shapes, s.isShape = false) ∨
      (∃ l, ets = some l ∧ ∃ o ∈ l, pyExtractU32 o = none)) :
    ∃ e, w.collisions_batch_filter shapes ets = (w, .error e) := by
  rcases h with ⟨s, hmem, hs⟩ | ⟨l, hl, o, hom, ho⟩
  · exact ⟨shapeTypeError, by
      simp [QuadTreeWrapper.collisions_batch_filter,
        collectShapesResult_error_of_mem shapes s hmem hs]⟩
  · cases hcs : collectShapesResult shapes with
    | error e => exact ⟨e, by simp [QuadTreeWrapper.collisions_batch_filter, hcs]⟩
    | ok ss =>
      have het : QuadTreeWrapper.extract_entity_types ets = .error u32TypeError := by
        subst hl
        simp [QuadTreeWrapper.extract_entity_types,
          collectU32Result_error_of_mem l o hom ho, Except.map]
      exact ⟨u32TypeError, by simp [QuadTreeWrapper.collisions_batch_filter, hcs, het]⟩

/-- C10 witness: the theorem applied to a batch containing the non-shape
object `other`. -/
theorem claim_C10_witness :
    ((∃ s ∈ [PyObject.other], s.isShape = false) ∨
      (∃ l, (none : Option (List PyObject)) = some l ∧
        ∃ o ∈ l, pyExtractU32 o = none)) ∧
    ∃ e, w0.collisions_batch_filter [PyObject.other] none = (w0, .error e) :=
  ⟨Or.inl ⟨PyObject.other, List.mem_singleton.mpr rfl, rfl⟩,
   claim_C10_batch_filter_atomic_failure w0 [PyObject.other] none
     (Or.inl ⟨PyObject.other, List.mem_singleton.mpr rfl, rfl⟩)⟩

end Quadtree
